import Mathlib

/-!
Shallow embedding of the task-tracking backend in `src/main.rs`: the `Todo`
record, the SQLite-backed store (modelled as a list of rows plus the
AUTOINCREMENT sequence counter), and the five data-access functions
`init_db`, `db_get_todos`, `db_add_todo`, `db_update_todo`, `db_delete_todo`.
The system clock (`Local::now().to_rfc3339()`) is modelled as an explicit
`now : String` argument; store-level failures (which the Rust code turns into
panics via `unwrap`/`expect`) are modelled by fallible variants that take the
store's outcome as an explicit argument.
-/

/-- The `Todo` struct of `main.rs` (id: u64, title, completed, created_at,
deadline: Option<String>). Ids are modelled as `Nat`; the Rust `u64` range is
irrelevant to the claims. -/
structure Todo where
  id : Nat
  title : String
  completed : Bool
  created_at : String
  deadline : Option String
deriving Repr, DecidableEq

/-- The state of the SQLite store: the rows of the `todos` table (in
store order) together with the `sqlite_sequence` counter that backs the
`INTEGER PRIMARY KEY AUTOINCREMENT` column. -/
structure DB where
  rows : List Todo
  seq : Nat
deriving Repr, DecidableEq

/-- Largest rowid currently present in the table (0 when empty); used by
SQLite's AUTOINCREMENT id assignment. -/
def maxRowId (rows : List Todo) : Nat :=
  rows.foldr (fun r m => max r.id m) 0

/-- `init_db`: creates the (empty) `todos` table. An empty table with a fresh
sequence counter. -/
def init_db : DB :=
  { rows := [], seq := 0 }

/-- `db_get_todos`: `SELECT id, title, completed, created_at, deadline FROM
todos` with no ORDER BY — returns the rows in store order. -/
def db_get_todos (db : DB) : List Todo :=
  db.rows

/-- `db_add_todo`: INSERT with store-assigned AUTOINCREMENT id. SQLite's
AUTOINCREMENT picks one more than the larger of the sequence counter and the
largest rowid present, and advances the counter to the new id. `created_at`
is the RFC 3339 local timestamp taken at the moment of insertion, modelled by
the `now` argument. Returns the fully populated `Todo` (no second read)
together with the new store state. -/
def db_add_todo (db : DB) (title : String) (deadline : Option String)
    (now : String) : Todo × DB :=
  let id := max db.seq (maxRowId db.rows) + 1
  let todo : Todo :=
    { id := id, title := title, completed := false, created_at := now,
      deadline := deadline }
  (todo, { rows := db.rows ++ [todo], seq := id })

/-- `UPDATE todos SET title = ?1 WHERE id = ?2`. -/
def sqlUpdateTitle (rows : List Todo) (t : String) (id : Nat) : List Todo :=
  rows.map fun r => if r.id = id then { r with title := t } else r

/-- `UPDATE todos SET completed = ?1 WHERE id = ?2`. -/
def sqlUpdateCompleted (rows : List Todo) (c : Bool) (id : Nat) : List Todo :=
  rows.map fun r => if r.id = id then { r with completed := c } else r

/-- `UPDATE todos SET deadline = ?1 WHERE id = ?2` (val may be NULL). -/
def sqlUpdateDeadline (rows : List Todo) (val : Option String) (id : Nat) :
    List Todo :=
  rows.map fun r => if r.id = id then { r with deadline := val } else r

/-- `db_update_todo`: up to three independent UPDATE statements, one per
supplied field, executed in the order title, completed, deadline. A supplied
empty-string deadline is normalized to NULL. Returns `success` (true iff at
least one field was supplied) and the new store state. -/
def db_update_todo (db : DB) (id : Nat) (title : Option String)
    (completed : Option Bool) (deadline : Option String) : Bool × DB :=
  let r0 : Bool × List Todo := (false, db.rows)
  let r1 : Bool × List Todo :=
    match title with
    | some t => (true, sqlUpdateTitle r0.2 t id)
    | none => r0
  let r2 : Bool × List Todo :=
    match completed with
    | some c => (true, sqlUpdateCompleted r1.2 c id)
    | none => r1
  let r3 : Bool × List Todo :=
    match deadline with
    | some d =>
      (true, sqlUpdateDeadline r2.2 (if d.isEmpty then none else some d) id)
    | none => r2
  (r3.1, { db with rows := r3.2 })

/-- `db_delete_todo`: `DELETE FROM todos WHERE id = ?1`; returns
`count > 0` where `count` is the number of rows removed. -/
def db_delete_todo (db : DB) (id : Nat) : Bool × DB :=
  let count := db.rows.countP (fun r => r.id == id)
  (decide (count > 0), { db with rows := db.rows.filter (fun r => r.id != id) })

/-- A store-level failure (rusqlite error), carrying a message. -/
inductive DbError where
  | failure (msg : String)
deriving Repr, DecidableEq

/-- The Rust `for todo in todo_iter { todos.push(todo.unwrap()) }` loop of
`db_get_todos`: each row of the query result is unwrapped in turn; the first
failing row aborts the call (panic), so no partial list is ever produced. -/
def collectRows : List (Except DbError Todo) → Except DbError (List Todo)
  | [] => .ok []
  | .error e :: _ => .error e
  | .ok t :: rest => (collectRows rest).map (fun l => t :: l)

/-- Failure-aware `db_get_todos`: the argument is the outcome of
`prepare`/`query_map` — either a store-level failure or the per-row results.
`unwrap` on a failed prepare/query panics; `unwrap` on a failed row panics.
A panic is an unrecoverable signal distinct from any returned list. -/
def db_get_todos_f (prep : Except DbError (List (Except DbError Todo))) :
    Except DbError (List Todo) :=
  match prep with
  | .error e => .error e
  | .ok rowResults => collectRows rowResults

/-- Whether one row of the query result failed to convert. -/
def rowFailed : Except DbError Todo → Bool
  | .error _ => true
  | .ok _ => false

/-- An execution of `db_get_todos` fails iff the prepare/query fails or some
row fails to convert. -/
def listExecFails (prep : Except DbError (List (Except DbError Todo))) :
    Bool :=
  match prep with
  | .error _ => true
  | .ok rowResults => rowResults.any rowFailed

/-- Which of the up-to-three UPDATE statements of a `db_update_todo` call
fail at the store level (each statement is executed and `unwrap`ped
separately). -/
structure FailPlan where
  failTitle : Bool
  failCompleted : Bool
  failDeadline : Bool
deriving Repr, DecidableEq

/-- Failure-aware `db_update_todo`: each supplied field is its own UPDATE
statement with its own `unwrap`. A failing statement panics immediately; the
statements already executed stay committed (SQLite autocommits each), so the
error carries the store state at the moment of the panic. A statement that
fails commits nothing itself. -/
def db_update_todo_f (db : DB) (id : Nat) (title : Option String)
    (completed : Option Bool) (deadline : Option String) (fp : FailPlan) :
    Except DB (Bool × DB) :=
  let step1 : Except DB (Bool × List Todo) :=
    match title with
    | some t =>
      if fp.failTitle then .error db
      else .ok (true, sqlUpdateTitle db.rows t id)
    | none => .ok (false, db.rows)
  match step1 with
  | .error s => .error s
  | .ok (s1, rows1) =>
    let step2 : Except DB (Bool × List Todo) :=
      match completed with
      | some c =>
        if fp.failCompleted then .error { db with rows := rows1 }
        else .ok (true, sqlUpdateCompleted rows1 c id)
      | none => .ok (s1, rows1)
    match step2 with
    | .error s => .error s
    | .ok (s2, rows2) =>
      match deadline with
      | some d =>
        if fp.failDeadline then .error { db with rows := rows2 }
        else
          .ok (true,
            { db with
              rows :=
                sqlUpdateDeadline rows2 (if d.isEmpty then none else some d)
                  id })
      | none => .ok (s2, { db with rows := rows2 })

/-- One caller request dispatched into the repository (the four Tauri
commands). The `create` case carries the clock reading at that call. -/
inductive Op where
  | create (title : String) (deadline : Option String) (now : String)
  | update (id : Nat) (title : Option String) (completed : Option Bool)
      (deadline : Option String)
  | delete (id : Nat)
  | list
deriving Repr, DecidableEq

/-- Apply one operation to the store (the state part of each call). -/
def applyOp (db : DB) : Op → DB
  | .create t d now => (db_add_todo db t d now).2
  | .update i t c d => (db_update_todo db i t c d).2
  | .delete i => (db_delete_todo db i).2
  | .list => db

/-- Run a sequence of operations from a store state. -/
def run (db : DB) (ops : List Op) : DB :=
  ops.foldl applyOp db

/-- The ids returned by the Create calls of a trace, in call order. -/
def createdIds (db : DB) : List Op → List Nat
  | [] => []
  | .create t d now :: ops =>
    (db_add_todo db t d now).1.id ::
      createdIds (db_add_todo db t d now).2 ops
  | .update i t c d :: ops => createdIds (applyOp db (.update i t c d)) ops
  | .delete i :: ops => createdIds (applyOp db (.delete i)) ops
  | .list :: ops => createdIds (applyOp db .list) ops

example :
    (db_add_todo init_db "Buy milk" none "2024-01-01T00:00:00+00:00").1.id
      = 1 := by decide

example :
    createdIds init_db
      [Op.create "a" none "t1", Op.delete 1, Op.create "b" none "t2"]
      = [1, 2] := by decide

example :
    (db_update_todo
      (db_add_todo init_db "a" (some "2024") "t").2 1 none none (some "")).2.rows
      = [{ id := 1, title := "a", completed := false, created_at := "t",
           deadline := none }] := by decide

/-! ### Helper lemmas -/

theorem maxRowId_cons (a : Todo) (l : List Todo) :
    maxRowId (a :: l) = max a.id (maxRowId l) := rfl

theorem id_le_maxRowId {rows : List Todo} {r : Todo} (h : r ∈ rows) :
    r.id ≤ maxRowId rows := by
  induction rows with
  | nil => cases h
  | cons a l ih =>
    rcases List.mem_cons.mp h with h1 | h2
    · subst h1; rw [maxRowId_cons]; exact le_max_left _ _
    · exact le_trans (ih h2) (by rw [maxRowId_cons]; exact le_max_right _ _)

theorem map_update_eq {α : Type} (f : Todo → Todo) (g : Todo → α)
    (h : ∀ r, g (f r) = g r) (rows : List Todo) (i : Nat) :
    (rows.map fun r => if r.id = i then f r else r).map g = rows.map g := by
  induction rows with
  | nil => rfl
  | cons a l ih =>
    simp only [List.map_cons, ih]
    congr 1
    split
    · exact h a
    · rfl

theorem map_update_no_match {f : Todo → Todo} (rows : List Todo) (i : Nat)
    (hno : ∀ r ∈ rows, r.id ≠ i) :
    (rows.map fun r => if r.id = i then f r else r) = rows := by
  induction rows with
  | nil => rfl
  | cons a l ih =>
    simp only [List.map_cons]
    rw [if_neg (hno a (List.mem_cons_self a l)),
      ih fun r hr => hno r (List.mem_cons_of_mem a hr)]

theorem sqlUpdateTitle_map_id (rows : List Todo) (t : String) (i : Nat) :
    (sqlUpdateTitle rows t i).map (·.id) = rows.map (·.id) :=
  map_update_eq (fun r => { r with title := t }) (·.id) (fun _ => rfl) rows i

theorem sqlUpdateCompleted_map_id (rows : List Todo) (c : Bool) (i : Nat) :
    (sqlUpdateCompleted rows c i).map (·.id) = rows.map (·.id) :=
  map_update_eq (fun r => { r with completed := c }) (·.id) (fun _ => rfl) rows i

theorem sqlUpdateDeadline_map_id (rows : List Todo) (v : Option String)
    (i : Nat) :
    (sqlUpdateDeadline rows v i).map (·.id) = rows.map (·.id) :=
  map_update_eq (fun r => { r with deadline := v }) (·.id) (fun _ => rfl) rows i

theorem sqlUpdateTitle_map_created (rows : List Todo) (t : String) (i : Nat) :
    (sqlUpdateTitle rows t i).map (·.created_at) = rows.map (·.created_at) :=
  map_update_eq (fun r => { r with title := t }) (·.created_at) (fun _ => rfl) rows i

theorem sqlUpdateCompleted_map_created (rows : List Todo) (c : Bool)
    (i : Nat) :
    (sqlUpdateCompleted rows c i).map (·.created_at)
      = rows.map (·.created_at) :=
  map_update_eq (fun r => { r with completed := c }) (·.created_at) (fun _ => rfl) rows i

theorem sqlUpdateDeadline_map_created (rows : List Todo) (v : Option String)
    (i : Nat) :
    (sqlUpdateDeadline rows v i).map (·.created_at)
      = rows.map (·.created_at) :=
  map_update_eq (fun r => { r with deadline := v }) (·.created_at) (fun _ => rfl) rows i

theorem sqlUpdateCompleted_map_title (rows : List Todo) (c : Bool) (i : Nat) :
    (sqlUpdateCompleted rows c i).map (·.title) = rows.map (·.title) :=
  map_update_eq (fun r => { r with completed := c }) (·.title) (fun _ => rfl) rows i

theorem sqlUpdateDeadline_map_title (rows : List Todo) (v : Option String)
    (i : Nat) :
    (sqlUpdateDeadline rows v i).map (·.title) = rows.map (·.title) :=
  map_update_eq (fun r => { r with deadline := v }) (·.title) (fun _ => rfl) rows i

theorem sqlUpdateTitle_map_deadline (rows : List Todo) (t : String)
    (i : Nat) :
    (sqlUpdateTitle rows t i).map (·.deadline) = rows.map (·.deadline) :=
  map_update_eq (fun r => { r with title := t }) (·.deadline) (fun _ => rfl) rows i

theorem sqlUpdateCompleted_map_deadline (rows : List Todo) (c : Bool)
    (i : Nat) :
    (sqlUpdateCompleted rows c i).map (·.deadline) = rows.map (·.deadline) :=
  map_update_eq (fun r => { r with completed := c }) (·.deadline) (fun _ => rfl) rows i

theorem sqlUpdateTitle_map_completed (rows : List Todo) (t : String)
    (i : Nat) :
    (sqlUpdateTitle rows t i).map (·.completed) = rows.map (·.completed) :=
  map_update_eq (fun r => { r with title := t }) (·.completed) (fun _ => rfl) rows i

theorem sqlUpdateDeadline_map_completed (rows : List Todo) (v : Option String)
    (i : Nat) :
    (sqlUpdateDeadline rows v i).map (·.completed) = rows.map (·.completed) :=
  map_update_eq (fun r => { r with deadline := v }) (·.completed) (fun _ => rfl) rows i

theorem update_rows_map_id (db : DB) (i : Nat) (t : Option String)
    (c : Option Bool) (d : Option String) :
    ((db_update_todo db i t c d).2).rows.map (·.id) = db.rows.map (·.id) := by
  cases t <;> cases c <;> cases d <;>
    simp [db_update_todo, sqlUpdateTitle_map_id, sqlUpdateCompleted_map_id,
      sqlUpdateDeadline_map_id]

theorem update_seq (db : DB) (i : Nat) (t : Option String) (c : Option Bool)
    (d : Option String) : ((db_update_todo db i t c d).2).seq = db.seq := rfl

theorem delete_seq (db : DB) (i : Nat) :
    ((db_delete_todo db i).2).seq = db.seq := rfl

theorem add_seq (db : DB) (t : String) (d : Option String) (now : String) :
    ((db_add_todo db t d now).2).seq = max db.seq (maxRowId db.rows) + 1 :=
  rfl

theorem add_id (db : DB) (t : String) (d : Option String) (now : String) :
    ((db_add_todo db t d now).1).id = max db.seq (maxRowId db.rows) + 1 :=
  rfl

theorem applyOp_seq_le (db : DB) (op : Op) : db.seq ≤ (applyOp db op).seq := by
  cases op with
  | create t d now =>
    show db.seq ≤ ((db_add_todo db t d now).2).seq
    rw [add_seq]
    exact le_trans (le_max_left _ _) (Nat.le_succ _)
  | update i t c d => exact le_of_eq (update_seq db i t c d).symm
  | delete i => exact le_of_eq (delete_seq db i).symm
  | list => exact le_refl _

theorem createdIds_gt_seq :
    ∀ (ops : List Op) (db : DB), ∀ i ∈ createdIds db ops, db.seq < i := by
  intro ops
  induction ops with
  | nil => intro db i hi; cases hi
  | cons op rest ih =>
    intro db i hi
    cases op with
    | create t d now =>
      simp only [createdIds] at hi
      rcases List.mem_cons.mp hi with h1 | h2
      · rw [h1, add_id]
        exact Nat.lt_succ_of_le (le_max_left _ _)
      · have h := ih _ i h2
        rw [add_seq] at h
        exact lt_of_le_of_lt (Nat.lt_succ_of_le (le_max_left _ _)).le h
    | update j t c d =>
      simp only [createdIds] at hi
      have h := ih _ i hi
      rwa [show (applyOp db (Op.update j t c d)).seq = db.seq from rfl] at h
    | delete j =>
      simp only [createdIds] at hi
      have h := ih _ i hi
      rwa [show (applyOp db (Op.delete j)).seq = db.seq from rfl] at h
    | list =>
      simp only [createdIds] at hi
      exact ih _ i hi

theorem createdIds_chain (ops : List Op) :
    ∀ db : DB, List.Chain' (· < ·) (createdIds db ops) := by
  induction ops with
  | nil => intro db; exact List.chain'_nil
  | cons op rest ih =>
    intro db
    cases op with
    | create t d now =>
      simp only [createdIds]
      refine List.chain'_cons'.mpr ⟨?_, ih _⟩
      intro b hb
      have hmem : b ∈ createdIds (db_add_todo db t d now).2 rest :=
        List.mem_of_mem_head? hb
      have h := createdIds_gt_seq rest _ b hmem
      rw [add_seq] at h
      rw [add_id]
      exact h
    | update j t c d => exact ih _
    | delete j => exact ih _
    | list => exact ih _

/-- The store invariant: every row's id is at most the sequence counter. -/
def StoreInv (db : DB) : Prop := ∀ r ∈ db.rows, r.id ≤ db.seq

theorem storeInv_init : StoreInv init_db := by
  intro r hr; cases hr

theorem inv_applyOp {db : DB} (h : StoreInv db) (op : Op) : StoreInv (applyOp db op) := by
  cases op with
  | create t d now =>
    intro r hr
    show r.id ≤ ((db_add_todo db t d now).2).seq
    rw [add_seq]
    have hr' : r ∈ db.rows ++ [(db_add_todo db t d now).1] := hr
    rcases List.mem_append.mp hr' with h1 | h2
    · exact le_trans (h r h1)
        (le_trans (le_max_left _ _) (Nat.le_succ _))
    · rw [List.mem_singleton.mp h2, add_id]
  | update j t c d =>
    intro r hr
    have hid : r.id ∈ ((db_update_todo db j t c d).2).rows.map (·.id) :=
      List.mem_map_of_mem _ hr
    rw [update_rows_map_id] at hid
    rcases List.mem_map.mp hid with ⟨r', hr', he⟩
    show r.id ≤ ((db_update_todo db j t c d).2).seq
    rw [update_seq, ← he]
    exact h r' hr'
  | delete j =>
    intro r hr
    exact h r (List.mem_of_mem_filter hr)
  | list => exact h

theorem inv_run {db : DB} (h : StoreInv db) (ops : List Op) : StoreInv (run db ops) := by
  induction ops generalizing db with
  | nil => exact h
  | cons op rest ih => exact ih (inv_applyOp h op)

theorem filter_id_eq_nil_of_gt {rows : List Todo} {n : Nat}
    (h : maxRowId rows < n) : rows.filter (fun r => r.id == n) = [] := by
  rw [List.filter_eq_nil_iff]
  intro r hr hb
  have := id_le_maxRowId hr
  have hrn : r.id = n := by
    simpa using hb
  omega

/-! ### Claims -/

/-- C1: For every sequence of Create calls on the same store (interleaved
with any other operations), the ids assigned to the created Tasks are
pairwise distinct and strictly increasing in creation order, and an id
removed by Delete (i.e. the id of a row actually present when the Delete
runs) is never assigned again by a later Create. -/
theorem c1_create_ids_unique_increasing_never_reused (ops : List Op) :
    List.Pairwise (· < ·) (createdIds init_db ops) ∧
    (∀ pre i post, ops = pre ++ Op.delete i :: post →
      (∃ r ∈ (run init_db pre).rows, r.id = i) →
      i ∉ createdIds (applyOp (run init_db pre) (Op.delete i)) post) := by
  constructor
  · exact List.chain'_iff_pairwise.mp (createdIds_chain ops init_db)
  · rintro pre i post _ ⟨r, hr, hri⟩ hmem
    have hinv := inv_run storeInv_init pre
    have hle : i ≤ (run init_db pre).seq := hri ▸ hinv r hr
    have hgt := createdIds_gt_seq post _ i hmem
    rw [show (applyOp (run init_db pre) (Op.delete i)).seq
        = (run init_db pre).seq from rfl] at hgt
    omega

/-- C1 witness: a concrete trace create, delete, create — ids [1, 2] strictly
increasing, and the deleted id 1 is not assigned by the later create. -/
theorem c1_witness :
    List.Pairwise (· < ·)
      (createdIds init_db
        [Op.create "a" none "t1", Op.delete 1, Op.create "b" none "t2"]) ∧
    1 ∉ createdIds (applyOp (run init_db [Op.create "a" none "t1"])
        (Op.delete 1)) [Op.create "b" none "t2"] :=
  ⟨(c1_create_ids_unique_increasing_never_reused
      [Op.create "a" none "t1", Op.delete 1, Op.create "b" none "t2"]).1,
   (c1_create_ids_unique_increasing_never_reused
      [Op.create "a" none "t1", Op.delete 1, Op.create "b" none "t2"]).2
     [Op.create "a" none "t1"] 1 [Op.create "b" none "t2"] rfl
     ⟨{ id := 1, title := "a", completed := false, created_at := "t1",
        deadline := none }, by decide, rfl⟩⟩

theorem add_filter_new_id (db : DB) (title : String)
    (deadline : Option String) (now : String) :
    (db_get_todos (db_add_todo db title deadline now).2).filter
        (fun r => r.id == (db_add_todo db title deadline now).1.id)
      = [(db_add_todo db title deadline now).1] := by
  have hgt : maxRowId db.rows < (db_add_todo db title deadline now).1.id := by
    rw [add_id]
    exact Nat.lt_succ_of_le (le_max_right _ _)
  show (db.rows ++ [(db_add_todo db title deadline now).1]).filter _ = _
  rw [List.filter_append, filter_id_eq_nil_of_gt hgt, List.nil_append,
    List.filter_cons_of_pos (by simp)]
  rfl

/-- C2: Create(title=T, deadline=D) followed by List yields exactly one Task
with the id returned by that Create, and it has title=T, completed=false and
deadline=D (stated for an arbitrary prior store state). -/
theorem c2_create_then_list_round_trip (db : DB) (title : String)
    (deadline : Option String) (now : String) :
    (db_get_todos (db_add_todo db title deadline now).2).filter
        (fun r => r.id == (db_add_todo db title deadline now).1.id)
      = [{ id := (db_add_todo db title deadline now).1.id, title := title,
           completed := false, created_at := now, deadline := deadline }] := by
  rw [add_filter_new_id]
  rfl

/-- C7: a successful Create returns exactly the row it persisted (the store
state gains that one row, no second read), with the store-assigned id (the
advanced sequence counter), the given title, completed=false, the insertion-
time timestamp and the given deadline. -/
theorem c7_create_returns_persisted_row (db : DB) (title : String)
    (deadline : Option String) (now : String) :
    ((db_add_todo db title deadline now).2).rows
        = db.rows ++ [(db_add_todo db title deadline now).1] ∧
    (db_add_todo db title deadline now).1
      = { id := ((db_add_todo db title deadline now).2).seq, title := title,
          completed := false, created_at := now, deadline := deadline } :=
  ⟨rfl, rfl⟩

/-- C10: Create performs no empty-string normalization on the deadline:
Create(title, deadline=Some "") persists and returns the deadline as
Some "" (present-and-empty), which List reports as such — distinct from an
absent deadline (none). -/
theorem c10_create_keeps_empty_string_deadline (db : DB) (title : String)
    (now : String) :
    (db_add_todo db title (some "") now).1.deadline = some "" ∧
    (db_get_todos (db_add_todo db title (some "") now).2).filter
        (fun r => r.id == (db_add_todo db title (some "") now).1.id)
      = [{ id := (db_add_todo db title (some "") now).1.id, title := title,
           completed := false, created_at := now, deadline := some "" }] ∧
    (some "" : Option String) ≠ none :=
  ⟨rfl, by rw [add_filter_new_id]; rfl, by simp⟩

theorem sqlUpdateDeadline_deadline_of_id {rows : List Todo}
    {v : Option String} {i : Nat} {r : Todo}
    (h : r ∈ sqlUpdateDeadline rows v i) (hid : r.id = i) : r.deadline = v := by
  simp only [sqlUpdateDeadline, List.mem_map] at h
  rcases h with ⟨r', hr', he⟩
  by_cases hc : r'.id = i
  · rw [if_pos hc] at he
    rw [← he]
  · rw [if_neg hc] at he
    rw [← he] at hid
    exact absurd hid hc

theorem update_rows_map_created (db : DB) (i : Nat) (t : Option String)
    (c : Option Bool) (d : Option String) :
    ((db_update_todo db i t c d).2).rows.map (·.created_at)
      = db.rows.map (·.created_at) := by
  cases t <;> cases c <;> cases d <;>
    simp [db_update_todo, sqlUpdateTitle_map_created,
      sqlUpdateCompleted_map_created, sqlUpdateDeadline_map_created]

/-- C3: supplying deadline="" to Update stores NULL (List shows the deadline
absent, not empty); supplying a non-empty string sets the deadline to that
string; omitting the deadline argument leaves every stored deadline
unchanged. -/
theorem c3_update_deadline_normalization (db : DB) (i : Nat) :
    (∀ r ∈ db_get_todos (db_update_todo db i none none (some "")).2,
        r.id = i → r.deadline = none) ∧
    (∀ d : String, d ≠ "" →
      ∀ r ∈ db_get_todos (db_update_todo db i none none (some d)).2,
        r.id = i → r.deadline = some d) ∧
    (∀ t : Option String, ∀ c : Option Bool,
      (db_get_todos (db_update_todo db i t c none).2).map (·.deadline)
        = (db_get_todos db).map (·.deadline)) := by
  refine ⟨?_, ?_, ?_⟩
  · intro r hr hid
    have hr' : r ∈ sqlUpdateDeadline db.rows none i := hr
    exact sqlUpdateDeadline_deadline_of_id hr' hid
  · intro d hd r hr hid
    have hemp : d.isEmpty = false := by
      rcases Bool.eq_false_or_eq_true d.isEmpty with h | h
      · exact absurd ((String.isEmpty_iff d).mp h) hd
      · exact h
    have hmem : r ∈ sqlUpdateDeadline db.rows
        (if d.isEmpty then none else some d) i := hr
    have h2 : (if d.isEmpty then none else some d : Option String)
        = some d := by simp [hemp]
    rw [h2] at hmem
    exact sqlUpdateDeadline_deadline_of_id hmem hid
  · intro t c
    cases t <;> cases c <;>
      simp [db_update_todo, db_get_todos, sqlUpdateTitle_map_deadline,
        sqlUpdateCompleted_map_deadline]

/-- C3 witness: deadline="" on an existing row clears it to none; "2030"
sets it; omitting the deadline leaves it unchanged. -/
theorem c3_witness :
    (∀ r ∈ db_get_todos (db_update_todo (db_add_todo init_db "a" (some "d")
        "t").2 1 none none (some "")).2, r.id = 1 → r.deadline = none) ∧
    (∀ r ∈ db_get_todos (db_update_todo (db_add_todo init_db "a" (some "d")
        "t").2 1 none none (some "2030")).2,
      r.id = 1 → r.deadline = some "2030") ∧
    (db_get_todos (db_update_todo (db_add_todo init_db "a" (some "d") "t").2
        1 (some "b") none none).2).map (·.deadline)
      = (db_get_todos (db_add_todo init_db "a" (some "d") "t").2).map
          (·.deadline) :=
  ⟨(c3_update_deadline_normalization
      (db_add_todo init_db "a" (some "d") "t").2 1).1,
   (c3_update_deadline_normalization
      (db_add_todo init_db "a" (some "d") "t").2 1).2.1 "2030" (by decide),
   (c3_update_deadline_normalization
      (db_add_todo init_db "a" (some "d") "t").2 1).2.2 (some "b") none⟩

/-- C4: Update modifies each of title/completed/deadline only if the
corresponding argument is supplied, and never touches ids or created_at; in
particular Update(id, completed=true) leaves every title, deadline, id and
created_at as it was. -/
theorem c4_partial_update_frame (db : DB) (i : Nat) (t : Option String)
    (c : Option Bool) (d : Option String) :
    (db_get_todos (db_update_todo db i t c d).2).map (·.id)
        = (db_get_todos db).map (·.id) ∧
    (db_get_todos (db_update_todo db i t c d).2).map (·.created_at)
        = (db_get_todos db).map (·.created_at) ∧
    (t = none → (db_get_todos (db_update_todo db i t c d).2).map (·.title)
        = (db_get_todos db).map (·.title)) ∧
    (c = none → (db_get_todos (db_update_todo db i t c d).2).map (·.completed)
        = (db_get_todos db).map (·.completed)) ∧
    (d = none → (db_get_todos (db_update_todo db i t c d).2).map (·.deadline)
        = (db_get_todos db).map (·.deadline)) := by
  refine ⟨update_rows_map_id db i t c d, update_rows_map_created db i t c d,
    ?_, ?_, ?_⟩
  · rintro rfl
    cases c <;> cases d <;>
      simp [db_update_todo, db_get_todos, sqlUpdateCompleted_map_title,
        sqlUpdateDeadline_map_title]
  · rintro rfl
    cases t <;> cases d <;>
      simp [db_update_todo, db_get_todos, sqlUpdateTitle_map_completed,
        sqlUpdateDeadline_map_completed]
  · rintro rfl
    cases t <;> cases c <;>
      simp [db_update_todo, db_get_todos, sqlUpdateTitle_map_deadline,
        sqlUpdateCompleted_map_deadline]

/-- C4 witness: Update(1, completed=true) on a concrete store keeps titles
and deadlines (and ids and created_at) unchanged. -/
theorem c4_witness :
    (db_get_todos (db_update_todo (db_add_todo init_db "Buy" (some "d")
        "t").2 1 none (some true) none).2).map (·.title)
      = (db_get_todos (db_add_todo init_db "Buy" (some "d") "t").2).map
          (·.title) ∧
    (db_get_todos (db_update_todo (db_add_todo init_db "Buy" (some "d")
        "t").2 1 none (some true) none).2).map (·.deadline)
      = (db_get_todos (db_add_todo init_db "Buy" (some "d") "t").2).map
          (·.deadline) ∧
    (db_get_todos (db_update_todo (db_add_todo init_db "Buy" (some "d")
        "t").2 1 none (some true) none).2).map (·.created_at)
      = (db_get_todos (db_add_todo init_db "Buy" (some "d") "t").2).map
          (·.created_at) :=
  ⟨(c4_partial_update_frame (db_add_todo init_db "Buy" (some "d") "t").2 1
      none (some true) none).2.2.1 rfl,
   (c4_partial_update_frame (db_add_todo init_db "Buy" (some "d") "t").2 1
      none (some true) none).2.2.2.2 rfl,
   (c4_partial_update_frame (db_add_todo init_db "Buy" (some "d") "t").2 1
      none (some true) none).2.1⟩

/-- C5: Delete(id) returns true iff a row with that id existed (the return
value is the affected-row count compared to zero); the deleted id no longer
appears in subsequent List results; a second Delete of the same id returns
false and leaves the store unchanged. -/
theorem c5_delete_finality (db : DB) (i : Nat) :
    ((db_delete_todo db i).1 = true ↔ ∃ r ∈ db_get_todos db, r.id = i) ∧
    (∀ r ∈ db_get_todos (db_delete_todo db i).2, r.id ≠ i) ∧
    (db_delete_todo (db_delete_todo db i).2 i).1 = false ∧
    (db_delete_todo (db_delete_todo db i).2 i).2 = (db_delete_todo db i).2 := by
  refine ⟨?_, ?_, ?_, ?_⟩
  · show decide (0 < db.rows.countP (fun r => r.id == i)) = true ↔ _
    rw [decide_eq_true_iff, List.countP_pos_iff]
    constructor
    · rintro ⟨r, hr, hb⟩
      exact ⟨r, hr, by simpa using hb⟩
    · rintro ⟨r, hr, hb⟩
      exact ⟨r, hr, by simpa using hb⟩
  · intro r hr
    have h := (List.mem_filter.mp hr).2
    simpa using h
  · show decide (0 < ((db_delete_todo db i).2).rows.countP
        (fun r => r.id == i)) = false
    have hz : ((db_delete_todo db i).2).rows.countP (fun r => r.id == i)
        = 0 := by
      rw [List.countP_eq_zero]
      intro r hr
      have h := (List.mem_filter.mp hr).2
      simpa using h
    rw [hz]
    rfl
  · show ({ (db_delete_todo db i).2 with
        rows := ((db_delete_todo db i).2).rows.filter
          (fun r => r.id != i) } : DB) = (db_delete_todo db i).2
    have hself : ((db_delete_todo db i).2).rows.filter (fun r => r.id != i)
        = ((db_delete_todo db i).2).rows :=
      List.filter_eq_self.mpr fun r hr => (List.mem_filter.mp hr).2
    rw [hself]

/-- C5 witness: deleting id 1 from a store holding exactly that row returns
true; deleting it again returns false. -/
theorem c5_witness :
    (db_delete_todo (db_add_todo init_db "x" none "t").2 1).1 = true ∧
    (db_delete_todo
      (db_delete_todo (db_add_todo init_db "x" none "t").2 1).2 1).1
      = false :=
  ⟨(c5_delete_finality (db_add_todo init_db "x" none "t").2 1).1.mpr
     ⟨{ id := 1, title := "x", completed := false, created_at := "t",
        deadline := none }, by decide, rfl⟩,
   (c5_delete_finality (db_add_todo init_db "x" none "t").2 1).2.2.1⟩

/-- C6: Update returns true iff at least one of title/completed/deadline was
supplied, independently of whether any row matches; when no row has the
given id the store is unchanged; Update with all three arguments absent
returns false. -/
theorem c6_update_reports_attempt (db : DB) (i : Nat) (t : Option String)
    (c : Option Bool) (d : Option String) :
    ((db_update_todo db i t c d).1 = true ↔
      (t.isSome = true ∨ c.isSome = true ∨ d.isSome = true)) ∧
    ((∀ r ∈ db_get_todos db, r.id ≠ i) →
      (db_update_todo db i t c d).2 = db) ∧
    (db_update_todo db i none none none).1 = false := by
  refine ⟨?_, ?_, rfl⟩
  · cases t <;> cases c <;> cases d <;> simp [db_update_todo]
  · intro hno
    have h1 : ∀ t' : String, sqlUpdateTitle db.rows t' i = db.rows :=
      fun t' => map_update_no_match db.rows i hno
    have h2 : ∀ c' : Bool, sqlUpdateCompleted db.rows c' i = db.rows :=
      fun c' => map_update_no_match db.rows i hno
    have h3 : ∀ v : Option String, sqlUpdateDeadline db.rows v i = db.rows :=
      fun v => map_update_no_match db.rows i hno
    cases t <;> cases c <;> cases d <;>
      simp [db_update_todo, h1, h2, h3]

/-- C6 witness: on a store whose only row has id 1, Update(99, title="X")
returns true yet changes nothing, and Update(99) with no fields returns
false. -/
theorem c6_witness :
    (db_update_todo (db_add_todo init_db "a" none "t").2 99 (some "X")
        none none).1 = true ∧
    (db_update_todo (db_add_todo init_db "a" none "t").2 99 (some "X")
        none none).2 = (db_add_todo init_db "a" none "t").2 ∧
    (db_update_todo (db_add_todo init_db "a" none "t").2 99 none none
        none).1 = false :=
  ⟨(c6_update_reports_attempt (db_add_todo init_db "a" none "t").2 99
      (some "X") none none).1.mpr (Or.inl rfl),
   (c6_update_reports_attempt (db_add_todo init_db "a" none "t").2 99
      (some "X") none none).2.1 (by decide),
   (c6_update_reports_attempt (db_add_todo init_db "a" none "t").2 99
      (some "X") none none).2.2⟩

theorem collectRows_error_of_any {rows : List (Except DbError Todo)}
    (h : rows.any rowFailed = true) :
    ∃ e, collectRows rows = Except.error e := by
  induction rows with
  | nil => simp at h
  | cons x rest ih =>
    cases x with
    | error e => exact ⟨e, rfl⟩
    | ok t =>
      rw [List.any_cons] at h
      have h' : rest.any rowFailed = true := by
        simpa [rowFailed] using h
      rcases ih h' with ⟨e, he⟩
      refine ⟨e, ?_⟩
      show (collectRows rest).map (fun l => t :: l) = Except.error e
      rw [he]
      rfl

theorem collectRows_ok {rows : List (Except DbError Todo)} {l : List Todo}
    (h : collectRows rows = Except.ok l) : rows.any rowFailed = false := by
  induction rows generalizing l with
  | nil => rfl
  | cons x rest ih =>
    cases x with
    | error e => exact absurd h (by simp [collectRows])
    | ok t =>
      have h' : (collectRows rest).map (fun l => t :: l) = Except.ok l := h
      cases hr : collectRows rest with
      | error e =>
        rw [hr] at h'
        exact absurd h' (by simp [Except.map])
      | ok l' =>
        rw [List.any_cons]
        simp only [rowFailed, Bool.false_or]
        exact ih hr

/-- C8: a failing store query makes List fail (the `unwrap` panic), a signal
distinct from any successfully returned list; no failing execution returns
an empty or partial task list as a success. -/
theorem c8_list_failure_is_signalled
    (prep : Except DbError (List (Except DbError Todo))) :
    (listExecFails prep = true →
      ∃ e, db_get_todos_f prep = Except.error e) ∧
    (∀ l : List Todo, db_get_todos_f prep = Except.ok l →
      listExecFails prep = false) := by
  constructor
  · intro hf
    cases prep with
    | error e => exact ⟨e, rfl⟩
    | ok rows => exact collectRows_error_of_any hf
  · intro l hl
    cases prep with
    | error e => exact absurd hl (by simp [db_get_todos_f])
    | ok rows => exact collectRows_ok hl

/-- A concrete query outcome whose second row fails to convert. -/
def failingPrep : Except DbError (List (Except DbError Todo)) :=
  Except.ok
    [Except.ok
      { id := 1, title := "a", completed := false, created_at := "t",
        deadline := none },
     Except.error (DbError.failure "disk I/O error")]

/-- C8 witness: a query whose second row fails yields an error, not a list
(in particular not the empty list). -/
theorem c8_witness :
    (∃ e, db_get_todos_f failingPrep = Except.error e) ∧
    db_get_todos_f (Except.error (DbError.failure "no such table"))
      ≠ Except.ok [] :=
  ⟨(c8_list_failure_is_signalled failingPrep).1 rfl,
   fun h => by
     have := (c8_list_failure_is_signalled
       (Except.error (DbError.failure "no such table"))).2 [] h
     exact absurd this (by decide)⟩

/-- C9: each field of a multi-field Update is its own statement; when a
later statement fails at the store level, the updates of earlier statements
of the same call remain committed. Here: title and completed both supplied,
the completed statement fails — the resulting store already has the title
update applied. -/
theorem c9_multi_field_update_not_atomic (db : DB) (i : Nat) (t : String)
    (c : Bool) (fp : FailPlan) (h1 : fp.failTitle = false)
    (h2 : fp.failCompleted = true) :
    db_update_todo_f db i (some t) (some c) none fp
      = Except.error { db with rows := sqlUpdateTitle db.rows t i } := by
  simp [db_update_todo_f, h1, h2]

/-- C9 witness: on a store holding row (1, "old"), Update(1, title="new",
completed=true) whose completed statement fails leaves the title already
changed to "new" — the error state differs from the pre-call state. -/
theorem c9_witness :
    db_update_todo_f (db_add_todo init_db "old" none "t").2 1 (some "new")
        (some true) none ⟨false, true, false⟩
      = Except.error
          { rows :=
              [{ id := 1, title := "new", completed := false,
                 created_at := "t", deadline := none }],
            seq := 1 } ∧
    ({ rows :=
         [{ id := 1, title := "new", completed := false,
            created_at := "t", deadline := none }],
       seq := 1 } : DB)
      ≠ (db_add_todo init_db "old" none "t").2 :=
  ⟨(c9_multi_field_update_not_atomic (db_add_todo init_db "old" none "t").2
      1 "new" true ⟨false, true, false⟩ rfl rfl).trans rfl,
   by decide⟩
